import Mathlib

/-!
Shallow embedding of fizz/protocol/Certificate.cpp (certificate handling of
the fizz TLS 1.3 engine) and verification of its specification.

Byte buffers (folly::IOBuf, folly::ByteRange, std::string payloads) are
modelled as `List Nat` of byte values.  The OpenSSL / folly collaborators
(DER parse and encode, public-key extraction, key-algorithm inspection,
PEM reading) are opaque to the source file, so they are modelled as an
abstract environment `OpenSSLEnv` of functions over abstract certificate
and key types; every function of the source file is then a Lean function
parametrised by that environment, translated statement by statement from
Certificate.cpp.  Each `throw std::runtime_error(...)` site is mapped to
the corresponding error kind of the specification taxonomy, recorded in
the comments below.
-/

namespace Fizz

/-- Modelled from the spec: the closed key-type enumeration
`{RSA, P256, P384, P521}` selected by certificate factories
(declared in the missing header Certificate.h). -/
inductive KeyType where
  | RSA
  | P256
  | P384
  | P521
deriving DecidableEq, Repr

/-- Modelled from the spec: the `CertificateVerifyContext` enumeration
`{Server, Client}` (declared in the missing header); the source only
compares it against `Server`. -/
inductive CertificateVerifyContext where
  | Server
  | Client
deriving DecidableEq, Repr

/-- Error taxonomy of the specification (section 7).  Each constructor is
the kind assigned to one or more `throw std::runtime_error` sites of
Certificate.cpp:
`EmptyInput` for "empty peer cert"; `DecodeError` for "could not read cert"
and "no certificates read"; `KeyDecodeError` for "failed to create BIO" /
"Failed to read key" (both mean the private key could not be read from the
buffer); `MissingPublicKey` for "couldn't get pubkey from peer cert" and
"Failed to read public key"; `UnsupportedKeyType` for "unknown peer cert
type" and "unknown self cert type"; `EncodingError` for "Error computing
length" and "Error converting cert to DER". -/
inductive CertError where
  | EmptyInput
  | DecodeError
  | KeyDecodeError
  | MissingPublicKey
  | UnsupportedKeyType
  | EncodingError
deriving DecidableEq, Repr

/-- Modelled from the spec: a `CertificateEntry` of the Certificate
message, `\x7b cert_data, extensions \x7d`; extensions are (type, data)
pairs and are always left empty by this core. -/
structure CertificateEntry where
  cert_data : List Nat
  extensions : List (Nat × List Nat)
deriving DecidableEq, Repr

/-- Modelled from the spec: the `CertificateMsg`
`\x7b certificate_request_context, certificate_list \x7d`. -/
structure CertificateMsg where
  certificate_request_context : List Nat
  certificate_list : List CertificateEntry
deriving DecidableEq, Repr

/-- Modelled from the spec: a typed peer certificate
(`PeerCertImpl<KeyType>` owning the parsed certificate). -/
structure PeerCert (X : Type) where
  keyType : KeyType
  cert : X
deriving DecidableEq, Repr

/-- Modelled from the spec: a typed self certificate
(`SelfCertImpl<KeyType>` owning the private key and the whole chain). -/
structure SelfCert (X K : Type) where
  keyType : KeyType
  key : K
  chain : List X
deriving DecidableEq, Repr

/-- EVP_PKEY_RSA of OpenSSL (the algorithm id compared on line 103). -/
def EVP_PKEY_RSA : Int := 6

/-- EVP_PKEY_EC of OpenSSL (the algorithm id compared on line 105). -/
def EVP_PKEY_EC : Int := 408

/-- NID_X9_62_prime256v1 of OpenSSL: the P-256 named curve. -/
def NID_X9_62_prime256v1 : Int := 415

/-- NID_secp384r1 of OpenSSL: the P-384 named curve. -/
def NID_secp384r1 : Int := 715

/-- NID_secp521r1 of OpenSSL: the P-521 named curve. -/
def NID_secp521r1 : Int := 716

/-- The OpenSSL / folly collaborator functions used by Certificate.cpp,
over abstract certificate type `X` and key type `K`:

* `d2i_X509 bytes = some (cert, consumed)` models a successful
  `d2i_X509` parse from the start of `bytes` that advanced the input
  pointer by `consumed` bytes; `none` models a null return.
* `X509_get_pubkey` yields the certificate's public key, `none` for null.
* `EVP_PKEY_id` is the key's algorithm identifier.
* `EVP_PKEY_ec_curve k = some nid` models a non-null
  `EVP_PKEY_get0_EC_KEY` whose group has curve name `nid`
  (`nid = 0` is NID_undef, an unnamed curve); `none` models a null
  `EVP_PKEY_get0_EC_KEY`.
* `i2d_len` is the return value of `i2d_X509(cert, nullptr)`.
* `i2d_enc cert = (ret, bytes)` is the second `i2d_X509` call: `ret` its
  return value and `bytes` the DER output it wrote (the bytes that become
  readable after `append(ret)`).
* `readCertsFromBuffer` models
  `folly::ssl::OpenSSLCertUtils::readCertsFromBuffer`.
* `PEM_read_PrivateKey bytes` models making a memory BIO over `bytes` and
  calling `PEM_read_bio_PrivateKey` on it; `none` when no key is read. -/
structure OpenSSLEnv (X K : Type) where
  d2i_X509 : List Nat → Option (X × Nat)
  X509_get_pubkey : X → Option K
  EVP_PKEY_id : K → Int
  EVP_PKEY_ec_curve : K → Option Int
  i2d_len : X → Int
  i2d_enc : X → Int × List Nat
  readCertsFromBuffer : List Nat → List X
  PEM_read_PrivateKey : List Nat → Option K

/-- getCurveName of Certificate.cpp (lines 12-18): if the key has an EC
key (non-null `EVP_PKEY_get0_EC_KEY`) return its group's curve name,
otherwise return 0. -/
def getCurveName {X K : Type} (env : OpenSSLEnv X K) (key : K) : Int :=
  match env.EVP_PKEY_ec_curve key with
  | some nid => nid
  | none => 0

/-- kServerLabel of prepareSignData, as bytes. -/
def kServerLabel : List Nat :=
  "TLS 1.3, server CertificateVerify".data.map Char.toNat

/-- kClientLabel of prepareSignData, as bytes. -/
def kClientLabel : List Nat :=
  "TLS 1.3, client CertificateVerify".data.map Char.toNat

/-- The label selection of prepareSignData (lines 33-38): the server label
when the context is `Server`, the client label otherwise. -/
def signLabel (context : CertificateVerifyContext) : List Nat :=
  if context = CertificateVerifyContext.Server then kServerLabel
  else kClientLabel

/-- CertUtils::prepareSignData (lines 23-54).  The source allocates a
buffer of length `64 + label.size() + 1 + toBeSigned.size()` and fills it
in order with 64 bytes of value 32 (0x20), the label, one zero byte and
`toBeSigned`; the sequential memset/memcpy writes are modelled as list
concatenation. -/
def prepareSignData (context : CertificateVerifyContext)
    (toBeSigned : List Nat) : List Nat :=
  List.replicate 64 32 ++ signLabel context ++ 0 :: toBeSigned

/-- The per-certificate body of the loop in CertUtils::getCertMessage
(lines 61-75): compute the DER length (negative means "Error computing
length", an `EncodingError`), then encode (a negative return is "Error
converting cert to DER", an `EncodingError`), leaving extensions empty. -/
def encodeEntry {X K : Type} (env : OpenSSLEnv X K) (cert : X) :
    Except CertError CertificateEntry :=
  if env.i2d_len cert < 0 then Except.error CertError.EncodingError
  else if (env.i2d_enc cert).1 < 0 then Except.error CertError.EncodingError
  else Except.ok { cert_data := (env.i2d_enc cert).2, extensions := [] }

/-- The entry-accumulating loop of CertUtils::getCertMessage (lines
59-76): certificates are processed in input order and the first encoding
failure aborts the whole build. -/
def buildEntries {X K : Type} (env : OpenSSLEnv X K) :
    List X → Except CertError (List CertificateEntry)
  | [] => Except.ok []
  | c :: cs =>
    match encodeEntry env c with
    | Except.error e => Except.error e
    | Except.ok entry =>
      match buildEntries env cs with
      | Except.error e => Except.error e
      | Except.ok entries => Except.ok (entry :: entries)

/-- CertUtils::getCertMessage (lines 56-82): build the entry list, then
move the request context and the entries into the message. -/
def getCertMessage {X K : Type} (env : OpenSSLEnv X K) (certs : List X)
    (certificateRequestContext : List Nat) : Except CertError CertificateMsg :=
  match buildEntries env certs with
  | Except.error e => Except.error e
  | Except.ok entries =>
    Except.ok { certificate_request_context := certificateRequestContext,
                certificate_list := entries }

/-- The key-classification switch shared verbatim by makePeerCert (lines
103-117) and makeSelfCert (lines 152-169): RSA keys classify as `RSA`
unconditionally; EC keys dispatch on the named curve through getCurveName;
every fall-through reaches the trailing `throw` ("unknown peer cert type" /
"unknown self cert type"), an `UnsupportedKeyType`. -/
def classifyKey {X K : Type} (env : OpenSSLEnv X K) (key : K) :
    Except CertError KeyType :=
  if env.EVP_PKEY_id key = EVP_PKEY_RSA then Except.ok KeyType.RSA
  else if env.EVP_PKEY_id key = EVP_PKEY_EC then
    if getCurveName env key = NID_X9_62_prime256v1 then Except.ok KeyType.P256
    else if getCurveName env key = NID_secp384r1 then Except.ok KeyType.P384
    else if getCurveName env key = NID_secp521r1 then Except.ok KeyType.P521
    else Except.error CertError.UnsupportedKeyType
  else Except.error CertError.UnsupportedKeyType

/-- CertUtils::makePeerCert (lines 84-118): reject an empty buffer
("empty peer cert", `EmptyInput`); parse one DER certificate from the
start ("could not read cert", `DecodeError`, on failure); a parse that
consumes fewer bytes than the buffer holds only emits the VLOG(1)
diagnostic on line 96 and has no effect on the result; extract the public
key ("couldn't get pubkey from peer cert", `MissingPublicKey`, when null);
classify it and wrap the certificate in the matching typed variant. -/
def makePeerCert {X K : Type} (env : OpenSSLEnv X K) (certData : List Nat) :
    Except CertError (PeerCert X) :=
  if certData.isEmpty then Except.error CertError.EmptyInput
  else
    match env.d2i_X509 certData with
    | none => Except.error CertError.DecodeError
    | some (cert, _consumed) =>
      match env.X509_get_pubkey cert with
      | none => Except.error CertError.MissingPublicKey
      | some pubKey =>
        match classifyKey env pubKey with
        | Except.error e => Except.error e
        | Except.ok t => Except.ok { keyType := t, cert := cert }

/-- CertUtils::makeSelfCert(vector<X509>, EvpPkey) (lines 144-171).  The
source reads `certs.front()` without checking for emptiness: on an empty
vector `front()` is undefined behavior, modelled as the `none` outcome.
Otherwise: extract the leaf's public key ("Failed to read public key",
`MissingPublicKey`, when null), classify it, and move the key and the
whole chain into the matching typed variant. -/
def makeSelfCert {X K : Type} (env : OpenSSLEnv X K) (certs : List X)
    (key : K) : Option (Except CertError (SelfCert X K)) :=
  match certs with
  | [] => none
  | leaf :: _ =>
    some (match env.X509_get_pubkey leaf with
      | none => Except.error CertError.MissingPublicKey
      | some pubKey =>
        match classifyKey env pubKey with
        | Except.error e => Except.error e
        | Except.ok t => Except.ok { keyType := t, key := key, chain := certs })

/-- CertUtils::makeSelfCert(string, string) (lines 120-142): read the
certificate chain from the buffer ("no certificates read", `DecodeError`,
when empty); read the private key through a memory BIO ("failed to create
BIO" / "Failed to read key", `KeyDecodeError`, when no key results); then
delegate to the two-argument makeSelfCert. -/
def makeSelfCertBytes {X K : Type} (env : OpenSSLEnv X K)
    (certData keyData : List Nat) : Option (Except CertError (SelfCert X K)) :=
  match env.readCertsFromBuffer certData with
  | [] => some (Except.error CertError.DecodeError)
  | c :: cs =>
    match env.PEM_read_PrivateKey keyData with
    | none => some (Except.error CertError.KeyDecodeError)
    | some key => makeSelfCert env (c :: cs) key

/-- IdentityCert (lines 173-181): stores the identity string; its
getIdentity returns it and getX509 always returns null. -/
structure IdentityCert where
  identity : String
deriving DecidableEq, Repr

/-- IdentityCert::getIdentity. -/
def IdentityCert.getIdentity (c : IdentityCert) : String :=
  c.identity

/-- A concrete instantiation of the collaborator environment over
certificate and key handles drawn from `Nat`, used to evaluate the
theorems below at concrete inputs.  A buffer parses as the certificate
named by its first byte when that byte lies in 1..9, consuming one byte;
certificate 9 has no public key, key 1 is RSA, keys 2, 3, 4 are EC with
curves P-256, P-384, P-521, key 5 is EC with curve NID 193 (an unlisted
curve), key 6 is EC with no named curve, all other keys have algorithm id
0; certificate 8 fails DER length computation and certificate 7 fails DER
encoding, every other certificate encodes to the single byte naming it. -/
def testEnv : OpenSSLEnv Nat Nat where
  d2i_X509 := fun bs =>
    match bs with
    | [] => none
    | b :: _ => if 1 ≤ b ∧ b ≤ 9 then some (b, 1) else none
  X509_get_pubkey := fun c => if c = 9 then none else some c
  EVP_PKEY_id := fun k => if k = 1 then 6 else if 2 ≤ k ∧ k ≤ 6 then 408 else 0
  EVP_PKEY_ec_curve := fun k =>
    if k = 2 then some 415
    else if k = 3 then some 715
    else if k = 4 then some 716
    else if k = 5 then some 193
    else none
  i2d_len := fun c => if c = 8 then -1 else 1
  i2d_enc := fun c => if c = 7 then (-1, []) else (1, [c])
  readCertsFromBuffer := fun bs => bs.filter (fun b => decide (1 ≤ b ∧ b ≤ 9))
  PEM_read_PrivateKey := fun bs => bs.head?

/-- Helper: a certificate whose DER length and encoding calls both return
non-negative values yields its entry. -/
theorem encodeEntry_ok {X K : Type} (env : OpenSSLEnv X K) (c : X)
    (h1 : 0 ≤ env.i2d_len c) (h2 : 0 ≤ (env.i2d_enc c).1) :
    encodeEntry env c
      = Except.ok { cert_data := (env.i2d_enc c).2, extensions := [] } := by
  rw [encodeEntry, if_neg (not_lt.mpr h1), if_neg (not_lt.mpr h2)]

/-- Helper: a negative length at either i2d_X509 call makes encodeEntry
fail with EncodingError. -/
theorem encodeEntry_error {X K : Type} (env : OpenSSLEnv X K) (c : X)
    (h : env.i2d_len c < 0 ∨ (env.i2d_enc c).1 < 0) :
    encodeEntry env c = Except.error CertError.EncodingError := by
  rcases h with h | h
  · simp [encodeEntry, h]
  · simp [encodeEntry, h]

/-- Helper: when every certificate encodes, buildEntries returns the
entries in input order. -/
theorem buildEntries_ok {X K : Type} (env : OpenSSLEnv X K) (certs : List X)
    (h : ∀ c ∈ certs, 0 ≤ env.i2d_len c ∧ 0 ≤ (env.i2d_enc c).1) :
    buildEntries env certs
      = Except.ok (certs.map fun c =>
          { cert_data := (env.i2d_enc c).2, extensions := [] }) := by
  induction certs with
  | nil => rfl
  | cons c cs ih =>
    have hc := h c (by simp)
    rw [buildEntries, encodeEntry_ok env c hc.1 hc.2,
      ih (fun d hd => h d (by simp [hd])), List.map_cons]

/-- Helper: when some certificate fails to encode, buildEntries fails
with EncodingError. -/
theorem buildEntries_error {X K : Type} (env : OpenSSLEnv X K) (certs : List X)
    (h : ∃ c ∈ certs, env.i2d_len c < 0 ∨ (env.i2d_enc c).1 < 0) :
    buildEntries env certs = Except.error CertError.EncodingError := by
  induction certs with
  | nil => rcases h with ⟨c, hc, _⟩; cases hc
  | cons c cs ih =>
    by_cases hfail : env.i2d_len c < 0 ∨ (env.i2d_enc c).1 < 0
    · rw [buildEntries, encodeEntry_error env c hfail]
    · push_neg at hfail
      have htail : ∃ d ∈ cs, env.i2d_len d < 0 ∨ (env.i2d_enc d).1 < 0 := by
        rcases h with ⟨d, hd, hfd⟩
        rcases List.mem_cons.mp hd with rfl | hd2
        · rcases hfd with hfd | hfd
          · exact absurd hfd (not_lt.mpr hfail.1)
          · exact absurd hfd (not_lt.mpr hfail.2)
        · exact ⟨d, hd2, hfd⟩
      rw [buildEntries, encodeEntry_ok env c hfail.1 hfail.2, ih htail]

/-- Helper: an RSA algorithm id classifies as RSA. -/
theorem classifyKey_rsa {X K : Type} (env : OpenSSLEnv X K) (k : K)
    (h : env.EVP_PKEY_id k = EVP_PKEY_RSA) :
    classifyKey env k = Except.ok KeyType.RSA := by
  rw [classifyKey, if_pos h]

/-- Helper: the only error classifyKey ever produces is
UnsupportedKeyType. -/
theorem classifyKey_error_eq {X K : Type} (env : OpenSSLEnv X K) (k : K)
    (e : CertError) (h : classifyKey env k = Except.error e) :
    e = CertError.UnsupportedKeyType := by
  rw [classifyKey] at h
  split_ifs at h <;> cases h <;> rfl

/-- Helper: a key that is neither RSA nor EC-with-a-recognized-curve
classifies as UnsupportedKeyType. -/
theorem classifyKey_unsupported {X K : Type} (env : OpenSSLEnv X K) (k : K)
    (h1 : env.EVP_PKEY_id k ≠ EVP_PKEY_RSA)
    (h2 : env.EVP_PKEY_id k = EVP_PKEY_EC →
      getCurveName env k ≠ NID_X9_62_prime256v1
      ∧ getCurveName env k ≠ NID_secp384r1
      ∧ getCurveName env k ≠ NID_secp521r1) :
    classifyKey env k = Except.error CertError.UnsupportedKeyType := by
  rw [classifyKey, if_neg h1]
  by_cases hec : env.EVP_PKEY_id k = EVP_PKEY_EC
  · have h3 := h2 hec
    rw [if_pos hec, if_neg h3.1, if_neg h3.2.1, if_neg h3.2.2]
  · rw [if_neg hec]

/-- Helper: an RSA key or an EC key on a recognized curve classifies
successfully. -/
theorem classifyKey_supported {X K : Type} (env : OpenSSLEnv X K) (k : K)
    (h : env.EVP_PKEY_id k = EVP_PKEY_RSA
      ∨ (env.EVP_PKEY_id k = EVP_PKEY_EC
          ∧ (getCurveName env k = NID_X9_62_prime256v1
            ∨ getCurveName env k = NID_secp384r1
            ∨ getCurveName env k = NID_secp521r1))) :
    ∃ t, classifyKey env k = Except.ok t := by
  rw [classifyKey]
  rcases h with h | ⟨hec, hcurve⟩
  · rw [if_pos h]
    exact ⟨_, rfl⟩
  · have hne : env.EVP_PKEY_id k ≠ EVP_PKEY_RSA := by
      rw [hec]; decide
    rw [if_neg hne, if_pos hec]
    rcases hcurve with hc | hc | hc
    · rw [if_pos hc]; exact ⟨_, rfl⟩
    · by_cases h256 : getCurveName env k = NID_X9_62_prime256v1
      · rw [if_pos h256]; exact ⟨_, rfl⟩
      · rw [if_neg h256, if_pos hc]; exact ⟨_, rfl⟩
    · by_cases h256 : getCurveName env k = NID_X9_62_prime256v1
      · rw [if_pos h256]; exact ⟨_, rfl⟩
      · by_cases h384 : getCurveName env k = NID_secp384r1
        · rw [if_neg h256, if_pos h384]; exact ⟨_, rfl⟩
        · rw [if_neg h256, if_neg h384, if_pos hc]; exact ⟨_, rfl⟩

/-- C1: for every byte range toBeSigned and both CertificateVerifyContext
values, prepareSignData returns a buffer of length
64 + label.length + 1 + toBeSigned.length whose first 64 bytes are all
0x20 (= 32), whose next label.length bytes are the ASCII label for the
given side (the server label for Server, the client label otherwise),
followed by one 0x00 byte and then toBeSigned verbatim. -/
theorem prepareSignData_layout (context : CertificateVerifyContext)
    (toBeSigned : List Nat) :
    (prepareSignData context toBeSigned).length
      = 64 + (signLabel context).length + 1 + toBeSigned.length
    ∧ (prepareSignData context toBeSigned).take 64 = List.replicate 64 32
    ∧ ((prepareSignData context toBeSigned).drop 64).take
        (signLabel context).length = signLabel context
    ∧ (prepareSignData context toBeSigned).drop (64 + (signLabel context).length)
      = 0 :: toBeSigned
    ∧ signLabel CertificateVerifyContext.Server = kServerLabel
    ∧ signLabel CertificateVerifyContext.Client = kClientLabel := by
  have h : (List.replicate 64 (32 : Nat)).length = 64 := by simp
  refine ⟨?_, ?_, ?_, ?_, rfl, rfl⟩
  · simp [prepareSignData]
    omega
  · rw [prepareSignData, List.append_assoc, List.take_left' h]
  · rw [prepareSignData, List.append_assoc, List.drop_left' h, List.take_left]
  · rw [prepareSignData, List.append_assoc, ← List.drop_drop,
      List.drop_left' h, List.drop_left]

/-- C2: for every byte range toBeSigned, the server-context and
client-context signing buffers are never equal (the labels differ at the
side word). -/
theorem prepareSignData_server_ne_client (toBeSigned : List Nat) :
    prepareSignData CertificateVerifyContext.Server toBeSigned
      ≠ prepareSignData CertificateVerifyContext.Client toBeSigned := by
  intro h
  rw [prepareSignData, prepareSignData, List.append_assoc,
    List.append_assoc] at h
  have h2 := List.append_cancel_left h
  have h3 := (List.append_inj h2 (by decide)).1
  exact absurd h3 (by decide)

/-- C2 witness: the two signing contexts differ already for an empty
toBeSigned. -/
theorem prepareSignData_server_ne_client_witness :
    prepareSignData CertificateVerifyContext.Server []
      ≠ prepareSignData CertificateVerifyContext.Client [] :=
  prepareSignData_server_ne_client []

/-- C3: when every certificate of the input sequence DER-encodes
successfully (both i2d_X509 calls return non-negative lengths),
getCertMessage succeeds with one entry per certificate in input order,
each entry carrying that certificate's DER encoding and an empty
extension list, and the request context moved in unchanged. -/
theorem getCertMessage_all_encoded {X K : Type} (env : OpenSSLEnv X K)
    (certs : List X) (ctx : List Nat)
    (h : ∀ c ∈ certs, 0 ≤ env.i2d_len c ∧ 0 ≤ (env.i2d_enc c).1) :
    getCertMessage env certs ctx
      = Except.ok
          { certificate_request_context := ctx,
            certificate_list := certs.map fun c =>
              { cert_data := (env.i2d_enc c).2, extensions := [] } } := by
  rw [getCertMessage, buildEntries_ok env certs h]

/-- C3 witness: in the concrete test environment, two encodable
certificates produce the two-entry message with the context preserved. -/
theorem getCertMessage_all_encoded_witness :
    getCertMessage testEnv [1, 2] [5]
      = Except.ok
          { certificate_request_context := [5],
            certificate_list := [{ cert_data := [1], extensions := [] },
                                 { cert_data := [2], extensions := [] }] } :=
  getCertMessage_all_encoded testEnv [1, 2] [5] (by decide)

/-- C4: getCertMessage fails, with EncodingError, exactly when some input
certificate reports a negative length at the length-computation or at the
encoding i2d_X509 call, and succeeds exactly when every certificate
encodes; no partial message is ever returned. -/
theorem getCertMessage_encoding_failure {X K : Type} (env : OpenSSLEnv X K)
    (certs : List X) (ctx : List Nat) :
    (getCertMessage env certs ctx = Except.error CertError.EncodingError
        ↔ ∃ c ∈ certs, env.i2d_len c < 0 ∨ (env.i2d_enc c).1 < 0)
    ∧ ((∃ msg, getCertMessage env certs ctx = Except.ok msg)
        ↔ ∀ c ∈ certs, 0 ≤ env.i2d_len c ∧ 0 ≤ (env.i2d_enc c).1) := by
  by_cases hex : ∃ c ∈ certs, env.i2d_len c < 0 ∨ (env.i2d_enc c).1 < 0
  · have herr := buildEntries_error env certs hex
    constructor
    · exact ⟨fun _ => hex, fun _ => by rw [getCertMessage, herr]⟩
    · constructor
      · rintro ⟨msg, hmsg⟩
        rw [getCertMessage, herr] at hmsg
        cases hmsg
      · intro hall
        exfalso
        rcases hex with ⟨c, hc, hf⟩
        have h2 := hall c hc
        rcases hf with hf | hf
        · exact absurd hf (not_lt.mpr h2.1)
        · exact absurd hf (not_lt.mpr h2.2)
  · push_neg at hex
    have hok := buildEntries_ok env certs hex
    constructor
    · constructor
      · intro herr
        rw [getCertMessage, hok] at herr
        cases herr
      · intro hexx
        exfalso
        rcases hexx with ⟨c, hc, hf⟩
        have h2 := hex c hc
        rcases hf with hf | hf
        · exact absurd hf (not_lt.mpr h2.1)
        · exact absurd hf (not_lt.mpr h2.2)
    · exact ⟨fun _ => hex, fun _ => ⟨_, by rw [getCertMessage, hok]⟩⟩

/-- C4 witness: in the concrete test environment a chain holding
certificate 8, whose DER length computation reports -1, fails with
EncodingError. -/
theorem getCertMessage_encoding_failure_witness :
    getCertMessage testEnv [1, 8] [5] = Except.error CertError.EncodingError :=
  (getCertMessage_encoding_failure testEnv [1, 8] [5]).1.mpr
    ⟨8, by decide, Or.inl (by decide)⟩

/-- C5: makePeerCert fails with EmptyInput on an empty buffer, with
DecodeError when a non-empty buffer does not parse as a DER certificate
from offset 0, with MissingPublicKey when the parsed certificate has no
extractable public key, with UnsupportedKeyType when the key is neither
RSA nor EC on a recognized curve, and in every other case returns a
PeerCert wrapping the parsed certificate. -/
theorem makePeerCert_cases {X K : Type} (env : OpenSSLEnv X K)
    (d : List Nat) :
    (d = [] → makePeerCert env d = Except.error CertError.EmptyInput)
    ∧ (d ≠ [] → env.d2i_X509 d = none →
        makePeerCert env d = Except.error CertError.DecodeError)
    ∧ (∀ c n, d ≠ [] → env.d2i_X509 d = some (c, n) →
        env.X509_get_pubkey c = none →
        makePeerCert env d = Except.error CertError.MissingPublicKey)
    ∧ (∀ c n k, d ≠ [] → env.d2i_X509 d = some (c, n) →
        env.X509_get_pubkey c = some k →
        env.EVP_PKEY_id k ≠ EVP_PKEY_RSA →
        (env.EVP_PKEY_id k = EVP_PKEY_EC →
          getCurveName env k ≠ NID_X9_62_prime256v1
          ∧ getCurveName env k ≠ NID_secp384r1
          ∧ getCurveName env k ≠ NID_secp521r1) →
        makePeerCert env d = Except.error CertError.UnsupportedKeyType)
    ∧ (∀ c n k, d ≠ [] → env.d2i_X509 d = some (c, n) →
        env.X509_get_pubkey c = some k →
        (env.EVP_PKEY_id k = EVP_PKEY_RSA
          ∨ (env.EVP_PKEY_id k = EVP_PKEY_EC
              ∧ (getCurveName env k = NID_X9_62_prime256v1
                ∨ getCurveName env k = NID_secp384r1
                ∨ getCurveName env k = NID_secp521r1))) →
        ∃ pc, makePeerCert env d = Except.ok pc ∧ pc.cert = c) := by
  refine ⟨fun h => by rw [h]; rfl, fun hne hd2i => ?_,
    fun c n hne hd2i hpk => ?_, fun c n k hne hd2i hpk hrsa hcurves => ?_,
    fun c n k hne hd2i hpk hsupp => ?_⟩
  · have hb : d.isEmpty = false := by cases d with
      | nil => exact absurd rfl hne
      | cons a l => rfl
    simp only [makePeerCert, hb, Bool.false_eq_true, if_false, hd2i]
  · have hb : d.isEmpty = false := by cases d with
      | nil => exact absurd rfl hne
      | cons a l => rfl
    simp only [makePeerCert, hb, Bool.false_eq_true, if_false, hd2i, hpk]
  · have hb : d.isEmpty = false := by cases d with
      | nil => exact absurd rfl hne
      | cons a l => rfl
    simp only [makePeerCert, hb, Bool.false_eq_true, if_false, hd2i, hpk,
      classifyKey_unsupported env k hrsa hcurves]
  · have hb : d.isEmpty = false := by cases d with
      | nil => exact absurd rfl hne
      | cons a l => rfl
    obtain ⟨t, ht⟩ := classifyKey_supported env k hsupp
    refine ⟨{ keyType := t, cert := c }, ?_, rfl⟩
    simp only [makePeerCert, hb, Bool.false_eq_true, if_false, hd2i, hpk, ht]

/-- C5 witness: in the concrete test environment, each failure kind and
the success case of makePeerCert is realized. -/
theorem makePeerCert_cases_witness :
    makePeerCert testEnv [] = Except.error CertError.EmptyInput
    ∧ makePeerCert testEnv [0] = Except.error CertError.DecodeError
    ∧ makePeerCert testEnv [9] = Except.error CertError.MissingPublicKey
    ∧ makePeerCert testEnv [5] = Except.error CertError.UnsupportedKeyType
    ∧ ∃ pc, makePeerCert testEnv [1] = Except.ok pc ∧ pc.cert = 1 :=
  ⟨(makePeerCert_cases testEnv []).1 rfl,
   (makePeerCert_cases testEnv [0]).2.1 (by decide) rfl,
   (makePeerCert_cases testEnv [9]).2.2.1 9 1 (by decide) rfl rfl,
   (makePeerCert_cases testEnv [5]).2.2.2.1 5 1 5 (by decide) rfl rfl
     (by decide) (fun _ => by decide),
   (makePeerCert_cases testEnv [1]).2.2.2.2 1 1 1 (by decide) rfl rfl
     (Or.inl (by decide))⟩

/-- C6: key classification is a function mapping each key to at most one
tag; an RSA algorithm id maps to RSA unconditionally, an EC key maps to
P256, P384 or P521 exactly when its named curve is P-256, P-384 or P-521
respectively, an EC key on any other curve (including the unnamed-curve
value 0 produced by getCurveName) fails with UnsupportedKeyType, and any
other algorithm family fails with UnsupportedKeyType. -/
theorem classifyKey_spec {X K : Type} (env : OpenSSLEnv X K) (k : K) :
    (env.EVP_PKEY_id k = EVP_PKEY_RSA →
        classifyKey env k = Except.ok KeyType.RSA)
    ∧ (env.EVP_PKEY_id k = EVP_PKEY_EC →
        ((classifyKey env k = Except.ok KeyType.P256
            ↔ getCurveName env k = NID_X9_62_prime256v1)
        ∧ (classifyKey env k = Except.ok KeyType.P384
            ↔ getCurveName env k = NID_secp384r1)
        ∧ (classifyKey env k = Except.ok KeyType.P521
            ↔ getCurveName env k = NID_secp521r1)
        ∧ (getCurveName env k ≠ NID_X9_62_prime256v1 →
            getCurveName env k ≠ NID_secp384r1 →
            getCurveName env k ≠ NID_secp521r1 →
            classifyKey env k = Except.error CertError.UnsupportedKeyType)))
    ∧ (env.EVP_PKEY_id k ≠ EVP_PKEY_RSA → env.EVP_PKEY_id k ≠ EVP_PKEY_EC →
        classifyKey env k = Except.error CertError.UnsupportedKeyType)
    ∧ (∀ t u, classifyKey env k = Except.ok t →
        classifyKey env k = Except.ok u → t = u) := by
  refine ⟨fun h => classifyKey_rsa env k h, fun hec => ?_,
    fun h1 h2 => classifyKey_unsupported env k h1 (fun hec => absurd hec h2),
    fun t u ht hu => ?_⟩
  · have hne : env.EVP_PKEY_id k ≠ EVP_PKEY_RSA := by rw [hec]; decide
    rw [classifyKey, if_neg hne, if_pos hec]
    refine ⟨⟨fun h => ?_, fun hc => by rw [if_pos hc]⟩,
      ⟨fun h => ?_, fun hc => ?_⟩, ⟨fun h => ?_, fun hc => ?_⟩,
      fun hc1 hc2 hc3 => by rw [if_neg hc1, if_neg hc2, if_neg hc3]⟩
    · split_ifs at h with ha hb hc <;> first | assumption | simp_all
    · split_ifs at h with ha hb hc <;> first | assumption | simp_all
    · have hne1 : getCurveName env k ≠ NID_X9_62_prime256v1 := by
        rw [hc]; decide
      rw [if_neg hne1, if_pos hc]
    · split_ifs at h with ha hb hc <;> first | assumption | simp_all
    · have hne1 : getCurveName env k ≠ NID_X9_62_prime256v1 := by
        rw [hc]; decide
      have hne2 : getCurveName env k ≠ NID_secp384r1 := by
        rw [hc]; decide
      rw [if_neg hne1, if_neg hne2, if_pos hc]
  · rw [ht] at hu
    exact Except.ok.inj hu

/-- C6 witness: in the concrete test environment, an RSA key, a P-256
key, an unlisted-curve EC key and a foreign-algorithm key classify as the
claim states. -/
theorem classifyKey_spec_witness :
    classifyKey testEnv 1 = Except.ok KeyType.RSA
    ∧ classifyKey testEnv 2 = Except.ok KeyType.P256
    ∧ classifyKey testEnv 5 = Except.error CertError.UnsupportedKeyType
    ∧ classifyKey testEnv 7 = Except.error CertError.UnsupportedKeyType :=
  ⟨(classifyKey_spec testEnv 1).1 (by decide),
   ((classifyKey_spec testEnv 2).2.1 (by decide)).1.mpr (by decide),
   ((classifyKey_spec testEnv 5).2.1 (by decide)).2.2.2 (by decide)
     (by decide) (by decide),
   (classifyKey_spec testEnv 7).2.2.1 (by decide) (by decide)⟩

/-- C7: when the DER parse succeeds but consumes fewer bytes than the
buffer holds (and, as for any deterministic DER parser, the consumed
prefix parses to the same certificate), makePeerCert does not fail on the
trailing bytes and returns the same result as on the consumed prefix
alone. -/
theorem makePeerCert_trailing {X K : Type} (env : OpenSSLEnv X K)
    (d : List Nat) (c : X) (n : Nat)
    (hparse : env.d2i_X509 d = some (c, n))
    (hpos : 0 < n) (hlt : n < d.length)
    (hdet : env.d2i_X509 (d.take n) = some (c, n)) :
    makePeerCert env d = makePeerCert env (d.take n)
    ∧ makePeerCert env d ≠ Except.error CertError.EmptyInput
    ∧ makePeerCert env d ≠ Except.error CertError.DecodeError := by
  have hb : d.isEmpty = false := by
    cases d with
    | nil => simp at hlt
    | cons a l => rfl
  have htb : (d.take n).isEmpty = false := by
    cases d with
    | nil => simp at hlt
    | cons a l =>
      cases n with
      | zero => exact absurd hpos (by decide)
      | succ m => rfl
  have hred : makePeerCert env d
      = (match env.X509_get_pubkey c with
        | none => Except.error CertError.MissingPublicKey
        | some pubKey =>
          match classifyKey env pubKey with
          | Except.error e => Except.error e
          | Except.ok t => Except.ok { keyType := t, cert := c }) := by
    simp only [makePeerCert, hb, Bool.false_eq_true, if_false, hparse]
  have hred2 : makePeerCert env (d.take n)
      = (match env.X509_get_pubkey c with
        | none => Except.error CertError.MissingPublicKey
        | some pubKey =>
          match classifyKey env pubKey with
          | Except.error e => Except.error e
          | Except.ok t => Except.ok { keyType := t, cert := c }) := by
    simp only [makePeerCert, htb, Bool.false_eq_true, if_false, hdet]
  refine ⟨hred.trans hred2.symm, ?_, ?_⟩
  · rw [hred]
    cases hpk : env.X509_get_pubkey c with
    | none => simp
    | some k =>
      cases hcl : classifyKey env k with
      | error e =>
        have he := classifyKey_error_eq env k e hcl
        simp [hcl, he]
      | ok t => simp [hcl]
  · rw [hred]
    cases hpk : env.X509_get_pubkey c with
    | none => simp
    | some k =>
      cases hcl : classifyKey env k with
      | error e =>
        have he := classifyKey_error_eq env k e hcl
        simp [hcl, he]
      | ok t => simp [hcl]

/-- C7 witness: in the concrete test environment, a buffer with one
trailing byte after the parsed certificate yields the same PeerCert as
its consumed one-byte prefix. -/
theorem makePeerCert_trailing_witness :
    makePeerCert testEnv [1, 7] = makePeerCert testEnv ([1, 7].take 1)
    ∧ makePeerCert testEnv [1, 7] ≠ Except.error CertError.EmptyInput
    ∧ makePeerCert testEnv [1, 7] ≠ Except.error CertError.DecodeError :=
  makePeerCert_trailing testEnv [1, 7] 1 1 rfl (by decide) (by decide) rfl

/-- C8: the buffer-based makeSelfCert fails with DecodeError when zero
certificates are recovered from the chain buffer, fails with
KeyDecodeError when no private key can be read from the key buffer, and
otherwise returns exactly the result of the two-argument makeSelfCert on
the recovered chain and key. -/
theorem makeSelfCertBytes_cases {X K : Type} (env : OpenSSLEnv X K)
    (certData keyData : List Nat) :
    (env.readCertsFromBuffer certData = [] →
      makeSelfCertBytes env certData keyData
        = some (Except.error CertError.DecodeError))
    ∧ (env.readCertsFromBuffer certData ≠ [] →
        env.PEM_read_PrivateKey keyData = none →
        makeSelfCertBytes env certData keyData
          = some (Except.error CertError.KeyDecodeError))
    ∧ (∀ key, env.readCertsFromBuffer certData ≠ [] →
        env.PEM_read_PrivateKey keyData = some key →
        makeSelfCertBytes env certData keyData
          = makeSelfCert env (env.readCertsFromBuffer certData) key) := by
  refine ⟨fun h0 => ?_, fun hne hkey => ?_, fun key hne hkey => ?_⟩
  · simp only [makeSelfCertBytes, h0]
  · cases hcs : env.readCertsFromBuffer certData with
    | nil => exact absurd hcs hne
    | cons c cs => simp only [makeSelfCertBytes, hcs, hkey]
  · cases hcs : env.readCertsFromBuffer certData with
    | nil => exact absurd hcs hne
    | cons c cs => simp only [makeSelfCertBytes, hcs, hkey]

/-- C8 witness: in the concrete test environment, a buffer recovering no
certificates, a key buffer yielding no key, and a fully successful pair
behave as the claim states. -/
theorem makeSelfCertBytes_cases_witness :
    makeSelfCertBytes testEnv [0] [1] = some (Except.error CertError.DecodeError)
    ∧ makeSelfCertBytes testEnv [1] []
        = some (Except.error CertError.KeyDecodeError)
    ∧ makeSelfCertBytes testEnv [1] [2]
        = makeSelfCert testEnv (testEnv.readCertsFromBuffer [1]) 2 :=
  ⟨(makeSelfCertBytes_cases testEnv [0] [1]).1 (by decide),
   (makeSelfCertBytes_cases testEnv [1] []).2.1 (by decide) rfl,
   (makeSelfCertBytes_cases testEnv [1] [2]).2.2 2 (by decide) rfl⟩

/-- C9: evaluation of the two-argument makeSelfCert at its boundary
inputs.  On an empty certificate vector the source reads the front of the
vector without any guard, which is undefined behavior, modelled here as
the `none` outcome: the code does NOT reject the empty sequence with a
well-defined error, contradicting the claim.  On a non-empty sequence the
code behaves as claimed: MissingPublicKey exactly when the leaf
certificate (certificate 9 of the test environment) has no extractable
public key, and a SelfCert otherwise. -/
theorem makeSelfCert_empty_chain_undefined :
    makeSelfCert testEnv ([] : List Nat) 1 = none
    ∧ makeSelfCert testEnv [9] 1
        = some (Except.error CertError.MissingPublicKey)
    ∧ makeSelfCert testEnv [1] 2
        = some (Except.ok { keyType := KeyType.RSA, key := 2, chain := [1] }) :=
  ⟨rfl, rfl, rfl⟩

/-- C10: getCertMessage on an empty certificate sequence does not fail:
it returns a message with an empty certificate_list and the given request
context unchanged. -/
theorem getCertMessage_empty_chain {X K : Type} (env : OpenSSLEnv X K)
    (ctx : List Nat) :
    getCertMessage env [] ctx
      = Except.ok { certificate_request_context := ctx,
                    certificate_list := [] } := rfl

end Fizz
